import Mathlib

/-
Verification of the session state engine and decision/action pipeline of
PlexAutoSkip (resources/skipper.py), as a shallow embedding: pure decision
functions are translated directly, stateful code becomes explicit state
passing over a registry record, and the remote player / server are abstracted
as explicit parameters (a response function for the player's control channel,
association lists for server lookups).
-/

namespace PAS

/-- Mode tags from Settings.MODE_TYPES as referenced by skipper.py
(SKIP and VOLUME); `off` stands for any other configured mode value. -/
inductive ModeType
  | skip
  | volume
  | off
deriving DecidableEq, Repr

/-- Skip policy values from Settings.SKIP_TYPES (ALWAYS, NEVER, WATCHED). -/
inductive SkipType
  | always
  | never
  | watched
deriving DecidableEq, Repr

/-- An operator-defined custom marker: one element of
MediaWrapper.customMarkers (start, end, mode, key). -/
structure CustomMarker where
  start : Int
  «end» : Int
  mode : ModeType
  key : Int
deriving DecidableEq, Repr

/-- A chapter-derived range (MediaWrapper.chapters / MediaWrapper.lastchapter). -/
structure Chapter where
  start : Int
  «end» : Int
  title : String
deriving DecidableEq, Repr

/-- A server-provided marker (MediaWrapper.markers), e.g. intro/credits. -/
structure SMarker where
  start : Int
  «end» : Int
  type : String
deriving DecidableEq, Repr

/-- Static content metadata of a session's media item. `none` on the Option
fields models an absent attribute (Python `hasattr` is false); an empty
librarySectionTitle models a falsy title. -/
structure Media where
  duration : Int
  type : String
  ratingKey : Int
  parentRatingKey : Option Int
  grandparentRatingKey : Option Int
  episodeNumber : Option Int
  seasonNumber : Option Int
  isWatched : Bool
  librarySectionTitle : String
deriving DecidableEq, Repr

/-- The visible part of a player's timeline (volume may be unreported). -/
structure Timeline where
  volume : Option Int
deriving DecidableEq, Repr

/-- A PlexClient as used by skipper.py: static identity fields, the control
endpoint base url, the proxy flag and the readable timeline. `timeline = none`
models a falsy timeline object. -/
structure Player where
  product : String
  title : String
  machineIdentifier : String
  address : String
  baseurl : String
  version : Option String
  timeline : Option Timeline
  proxyThroughServer : Bool
deriving DecidableEq, Repr

/-- The per-session record tracked by the registry, mirroring the MediaWrapper
fields that skipper.py reads and writes. `playQueueID = 0` models a falsy play
queue id, `leftOffset/rightOffset = 0` model falsy per-session overrides. -/
structure MediaWrapper where
  pasIdentifier : String
  clientIdentifier : String
  seeking : Bool
  viewOffset : Int
  media : Media
  leftOffset : Int
  rightOffset : Int
  customMarkers : List CustomMarker
  chapters : List Chapter
  markers : List SMarker
  lastchapter : Option Chapter
  mode : ModeType
  sinceLastUpdate : Int
  loweringVolume : Bool
  cachedVolume : Int
  playQueueID : Int
  player : Option Player
  usernames : List String
  customOnly : Bool
deriving DecidableEq, Repr

/-- The global configuration consulted by skipper.py (resources/settings.py is
an external collaborator; only the fields skipper.py reads are modeled).
`skiplastchapter = 0` models a falsy (disabled) threshold. -/
structure Settings where
  leftOffset : Int
  rightOffset : Int
  durationOffset : Int
  skiplastchapter : Rat
  skipnext : Bool
  volumelow : Int
  volumehigh : Int
  types : List String
  ignoredlibraries : List String
  skipE01 : SkipType
  skipS01E01 : SkipType
  skipunwatched : Bool
deriving DecidableEq, Repr

/-- The operator allow/block lists consulted by skipper.py
(resources/customEntries.py is an external collaborator). -/
structure CustomEntries where
  allowedKeys : List Int
  blockedKeys : List Int
  allowedUsers : List String
  blockedUsers : List String
  allowedClients : List String
  blockedClients : List String
  allowedSkipNext : List String
  blockedSkipNext : List String
deriving DecidableEq, Repr

/-- BROKEN_CLIENTS table of skipper.py (product to first broken version). -/
def BROKEN_CLIENTS (product : String) : Option String :=
  if product == "Plex Web" then some "4.83.2"
  else if product == "Plex for Windows" then some "1.46.1"
  else if product == "Plex for Mac" then some "1.46.1"
  else if product == "Plex for Linux" then some "1.46.1"
  else none

/-- CLIENT_PORTS table of skipper.py (product to direct-connection port). -/
def CLIENT_PORTS (product : String) : Option Int :=
  if product == "Plex for Roku" then some 8324
  else if product == "Plex for Android (TV)" then some 32500
  else if product == "Plex for Android (Mobile)" then some 32500
  else if product == "Plex for iOS" then some 32500
  else if product == "Plex for Windows" then some 32700
  else if product == "Plex for Mac" then some 32700
  else none

/-- PROXY_ONLY table of skipper.py: products with no direct-connection path. -/
def PROXY_ONLY : List String :=
  ["Plex Web", "Plex for Windows", "Plex for Mac", "Plex for Linux"]

/-- DEFAULT_CLIENT_PORT of skipper.py. -/
def DEFAULT_CLIENT_PORT : Int := 32500

/-- TIMEOUT of skipper.py: the staleness eviction threshold in seconds. -/
def TIMEOUT : Int := 30

/-- IGNORED_CAP of skipper.py: capacity of the bounded ignore list. -/
def IGNORED_CAP : Nat := 200

/-- Digit run to a number (the components of the versions compared against
the BROKEN_CLIENTS table are plain digit runs). -/
def digitsToNat (cs : List Char) : Nat :=
  cs.foldl (fun n c => n * 10 + (c.toNat - 48)) 0

/-- Split a version string's characters at the dots. -/
def splitDots : List Char → List (List Char)
  | [] => [[]]
  | c :: cs =>
    match splitDots cs with
    | [] => [[]]
    | g :: gs => if c = '.' then [] :: g :: gs else (c :: g) :: gs

/-- pkg_resources.parse_version restricted to dotted numeric versions, the
only shape appearing in the BROKEN_CLIENTS table (external library; the spec
describes the comparison as on dotted numeric tuples). -/
def parseVersion (s : String) : List Nat :=
  (splitDots s.data).map digitsToNat

/-- Strict comparison of dotted numeric versions, missing trailing components
reading as zero (so equal-length comparisons are plain lexicographic). -/
def versionLt : List Nat → List Nat → Bool
  | [], [] => false
  | [], b :: bs => decide (0 < b) || versionLt [] bs
  | _ :: _, [] => false
  | a :: as_, b :: bs => decide (a < b) || (a == b && versionLt as_ bs)

/-- parse_version(x) >= parse_version(y) for dotted numeric versions. -/
def versionGe (a b : List Nat) : Bool := !versionLt a b

/-- validPlayer (skipper.py lines 289-294): false when the product is in
BROKEN_CLIENTS, a version is reported, and that version is at or above the
broken threshold. -/
def validPlayer (player : Player) : Bool :=
  match BROKEN_CLIENTS player.product with
  | none => true
  | some bad =>
    match player.version with
    | none => true
    | some v => !(versionGe (parseVersion v) (parseVersion bad))

/-- Modelled from the spec: MediaWrapper.updateOffset
(resources/mediaWrapper.py is not among the provided sources). Per spec §3 and
§4.4 it synchronizes the cached position, sets or clears the seeking flag, and
refreshes the last-update timestamp. -/
def MediaWrapper.updateOffset (w : MediaWrapper) (offset : Int) (seeking : Bool) :
    MediaWrapper :=
  { w with viewOffset := offset, seeking := seeking, sinceLastUpdate := 0 }

/-- Modelled from the spec: MediaWrapper.updateVolume
(resources/mediaWrapper.py is not among the provided sources). Per spec §3 the
volume-lowering flag and the cached previous volume are set together at the
moment of lowering; the cached value is the volume to restore to when leaving
a lowered interval. -/
def MediaWrapper.updateVolume (w : MediaWrapper) (volume previousVolume : Int)
    (lowering : Bool) : MediaWrapper :=
  { w with loweringVolume := lowering,
           cachedVolume := if lowering then previousVolume else w.cachedVolume }

/-- Modelled from the spec: MediaWrapper.getSessionClientIdentifier
(resources/mediaWrapper.py is not among the provided sources). Per spec §3 the
session key and client identifier form a stable composite identifier string. -/
def getSessionClientIdentifier (sessionKey : Int) (clientIdentifier : String) :
    String :=
  toString sessionKey ++ "-" ++ clientIdentifier

/-- Player title as read by skipper.py (`mediaWrapper.player.title`); an
absent player reads as the empty title (such a session is only reachable with
empty client lists, where the value is never inspected). -/
def playerTitle (w : MediaWrapper) : String :=
  match w.player with
  | some p => p.title
  | none => ""

/-- The last-chapter gate of skipper.py lines 141 and 180: a truthy
skiplastchapter threshold, a present last chapter, and the final chapter's
start as a fraction of total duration exceeding the threshold. -/
def skiplastchapterGate (settings : Settings) (w : MediaWrapper) : Bool :=
  !(settings.skiplastchapter == 0) &&
    (match w.lastchapter with
     | some lc =>
        decide ((lc.start : Rat) / (w.media.duration : Rat) > settings.skiplastchapter)
     | none => false)

/-- Whether the view offset falls inside the final chapter (lines 142, 181). -/
def lastchapterContains (w : MediaWrapper) : Bool :=
  match w.lastchapter with
  | some lc => decide (lc.start ≤ w.viewOffset) && decide (w.viewOffset ≤ lc.«end»)
  | none => false

/-- checkMediaSkip (skipper.py lines 130-157): the target offset handed to
seekTo, none when no skip fires. Source order: custom skip markers, then (in
skip mode only) the last-chapter shortcut, then chapters, then server
markers. -/
def checkMediaSkip (settings : Settings) (w : MediaWrapper)
    (leftOffset rightOffset : Int) : Option Int :=
  let skipMarkers := w.customMarkers.filter (fun m => m.mode == ModeType.skip)
  match skipMarkers.find? (fun m =>
      decide (m.start ≤ w.viewOffset) && decide (w.viewOffset ≤ m.«end»)) with
  | some marker => some marker.«end»
  | none =>
    if w.mode != ModeType.skip then none
    else if skiplastchapterGate settings w && lastchapterContains w then
      some w.media.duration
    else
      match w.chapters.find? (fun c =>
          decide (c.start ≤ w.viewOffset) && decide (w.viewOffset ≤ c.«end»)) with
      | some chapter => some chapter.«end»
      | none =>
        match w.markers.find? (fun m =>
            decide (m.start + leftOffset ≤ w.viewOffset) &&
            decide (w.viewOffset ≤ m.«end»)) with
        | some marker => some (marker.«end» + rightOffset)
        | none => none

/-- shouldLowerMediaVolume (skipper.py lines 170-194). -/
def shouldLowerMediaVolume (settings : Settings) (w : MediaWrapper)
    (leftOffset rightOffset : Int) : Bool :=
  let customVolumeMarkers := w.customMarkers.filter (fun m => m.mode == ModeType.volume)
  if customVolumeMarkers.any (fun m =>
      decide (m.start ≤ w.viewOffset) && decide (w.viewOffset ≤ m.«end»)) then
    true
  else if w.mode != ModeType.volume then false
  else if skiplastchapterGate settings w && lastchapterContains w then true
  else if w.chapters.any (fun c =>
      decide (c.start ≤ w.viewOffset) && decide (w.viewOffset ≤ c.«end»)) then
    true
  else if w.markers.any (fun m =>
      decide (m.start + leftOffset ≤ w.viewOffset) &&
      decide (w.viewOffset ≤ m.«end» + rightOffset)) then
    true
  else false

/-- checkMediaVolume (skipper.py lines 159-168): the (volume, lowering) pair
handed to setVolume, none when no volume transition fires. -/
def checkMediaVolume (settings : Settings) (w : MediaWrapper)
    (leftOffset rightOffset : Int) : Option (Int × Bool) :=
  let shouldLower := shouldLowerMediaVolume settings w leftOffset rightOffset
  if !w.loweringVolume && shouldLower then some (settings.volumelow, true)
  else if w.loweringVolume && !shouldLower then some (w.cachedVolume, false)
  else none

/-- shouldSkipNext (skipper.py lines 370-381). -/
def shouldSkipNext (custom : CustomEntries) (settings : Settings)
    (w : MediaWrapper) : Bool :=
  if !custom.allowedSkipNext.isEmpty &&
      (!custom.allowedSkipNext.contains (playerTitle w) &&
       !custom.allowedSkipNext.contains w.clientIdentifier) then false
  else if !custom.blockedSkipNext.isEmpty &&
      (custom.blockedSkipNext.contains (playerTitle w) ||
       custom.blockedSkipNext.contains w.clientIdentifier) then false
  else settings.skipnext

/-- The decisions of one checkMedia call: the targets handed to seekTo, the
volume commands handed to setVolume, and whether the staleness eviction
fires. -/
structure CheckResult where
  seekTargets : List Int
  volumeCmds : List (Int × Bool)
  removed : Bool
deriving DecidableEq, Repr

/-- checkMedia (skipper.py lines 112-128): one control-loop check of one
session. Returns immediately (no decisions, no eviction) while the session is
seeking; otherwise runs the skip check, the volume check, the end-of-playback
check, and the staleness check. -/
def checkMedia (settings : Settings) (custom : CustomEntries)
    (w : MediaWrapper) : CheckResult :=
  if w.seeking then ⟨[], [], false⟩
  else
    let leftOffset := if w.leftOffset != 0 then w.leftOffset else settings.leftOffset
    let rightOffset := if w.rightOffset != 0 then w.rightOffset else settings.rightOffset
    let skipSeeks := (checkMediaSkip settings w leftOffset rightOffset).toList
    let volumeCmds := (checkMediaVolume settings w leftOffset rightOffset).toList
    let endSeeks :=
      if decide (w.viewOffset ≥ w.media.duration - settings.durationOffset) &&
          shouldSkipNext custom settings w then
        [w.media.duration]
      else []
    ⟨skipSeeks ++ endSeeks, volumeCmds, decide (w.sinceLastUpdate > TIMEOUT)⟩

/-- A command sent over a client's control channel. -/
inductive PlayerCmd
  | seekCmd (offset : Int)
  | skipNextCmd
  | volumeCmd (volume : Int)
deriving DecidableEq, Repr

/-- How the remote player answers one command: success, a malformed-but-benign
response (xml ParseError), an explicit player-not-found/forbidden rejection
(plexapi BadRequest), a transport timeout, or any other exception. -/
inductive CmdResp
  | ok
  | parseError
  | badRequest
  | timeoutErr
  | otherErr
deriving DecidableEq, Repr

/-- The PlexServer as consulted by skipper.py: play-queue lookup
(PlayQueue.get, `none` modelling the caught lookup exception) and the
myPlex client port table. -/
structure Server where
  playQueues : List (Int × List Media)
  myPlexClientPorts : List (String × Int)
deriving Repr

/-- recoverPlayer (skipper.py lines 296-309): none for proxy-only products and
for players already not proxying; otherwise rewrite the control endpoint to a
direct address and clear the proxy flag. -/
def recoverPlayer (server : Server) (player : Player) : Option Player :=
  if PROXY_ONLY.contains player.product then none
  else if !player.proxyThroughServer then none
  else
    let port : Int :=
      match server.myPlexClientPorts.lookup player.machineIdentifier with
      | some p => p
      | none =>
        match CLIENT_PORTS player.product with
        | some p => p
        | none => DEFAULT_CLIENT_PORT
    some { player with
            baseurl := "http://" ++ player.address ++ ":" ++ toString port,
            proxyThroughServer := false }

/-- How one dispatched remote call ends: a normal boolean return, or an
exception escaping to the worker wrapper. -/
inductive CallRet
  | ret (b : Bool)
  | exc (e : CmdResp)
deriving DecidableEq, Repr

/-- Result of one dispatched remote call: how it ended, the session record as
left behind (optimistic cache updates included), and the commands actually
sent over the control channel, in order. -/
structure CallResult where
  ret : CallRet
  wrapper : MediaWrapper
  cmds : List PlayerCmd
deriving DecidableEq, Repr

/-- The pre-send adjustment of skipper.py lines 214-216: a target beyond a
truthy media duration is reduced to the duration; nothing else is adjusted. -/
def clampTarget (w : MediaWrapper) (targetOffset : Int) : Int :=
  if w.media.duration != 0 && decide (targetOffset > w.media.duration) then
    w.media.duration
  else targetOffset

/-- seekPlayerTo (skipper.py lines 210-250). The remote player's behavior is
abstracted as `respond`. `fuel` bounds the recover-and-retry recursion of line
248; the source recursion terminates because recoverPlayer either fails or
clears the proxy flag, after which a further recovery returns none, so any
fuel of at least 4 is never exhausted. ParseError responses are treated as
success, a BadRequest response re-issues the command against the recovered
player, timeouts and other exceptions escape. -/
def seekPlayerTo (fuel : Nat) (server : Server) (settings : Settings)
    (respond : Player → PlayerCmd → CmdResp) (player : Option Player)
    (w : MediaWrapper) (targetOffset : Int) : CallResult :=
  match fuel with
  | 0 => ⟨CallRet.exc CmdResp.otherErr, w, []⟩
  | fuel + 1 =>
    match player with
    | none => ⟨CallRet.ret false, w, []⟩
    | some player =>
      let targetOffset := clampTarget w targetOffset
      let w := w.updateOffset targetOffset true
      let send : PlayerCmd → CallResult := fun cmd =>
        match respond player cmd with
        | CmdResp.ok => ⟨CallRet.ret true, w, [cmd]⟩
        | CmdResp.parseError => ⟨CallRet.ret true, w, [cmd]⟩
        | CmdResp.badRequest =>
          let r := seekPlayerTo fuel server settings respond
            (recoverPlayer server player) w targetOffset
          ⟨r.ret, r.wrapper, cmd :: r.cmds⟩
        | CmdResp.timeoutErr => ⟨CallRet.exc CmdResp.timeoutErr, w, [cmd]⟩
        | CmdResp.otherErr => ⟨CallRet.exc CmdResp.otherErr, w, [cmd]⟩
      if settings.skipnext &&
          decide (targetOffset ≥ w.media.duration - settings.durationOffset) then
        if w.playQueueID != 0 then
          match server.playQueues.lookup w.playQueueID with
          | some items =>
            match items.getLast? with
            | none => ⟨CallRet.exc CmdResp.otherErr, w, []⟩
            | some lastItem =>
              if lastItem == w.media then send (PlayerCmd.seekCmd targetOffset)
              else send PlayerCmd.skipNextCmd
          | none => send PlayerCmd.skipNextCmd
        else send PlayerCmd.skipNextCmd
      else send (PlayerCmd.seekCmd targetOffset)

/-- setPlayerVolume (skipper.py lines 266-287): capture the previous volume
from the player timeline (falling back to the configured high/low value),
cache it on the wrapper, then send the volume command with the same response
handling as seekPlayerTo. -/
def setPlayerVolume (fuel : Nat) (server : Server) (settings : Settings)
    (respond : Player → PlayerCmd → CmdResp) (player : Option Player)
    (w : MediaWrapper) (volume : Int) (lowering : Bool) : CallResult :=
  match fuel with
  | 0 => ⟨CallRet.exc CmdResp.otherErr, w, []⟩
  | fuel + 1 =>
    match player with
    | none => ⟨CallRet.ret false, w, []⟩
    | some player =>
      let fallback := if lowering then settings.volumehigh else settings.volumelow
      let previousVolume :=
        match player.timeline with
        | some tl =>
          match tl.volume with
          | some v => v
          | none => fallback
        | none => fallback
      let w := w.updateVolume volume previousVolume lowering
      match respond player (PlayerCmd.volumeCmd volume) with
      | CmdResp.ok => ⟨CallRet.ret true, w, [PlayerCmd.volumeCmd volume]⟩
      | CmdResp.parseError => ⟨CallRet.ret true, w, [PlayerCmd.volumeCmd volume]⟩
      | CmdResp.badRequest =>
        let r := setPlayerVolume fuel server settings respond
          (recoverPlayer server player) w volume lowering
        ⟨r.ret, r.wrapper, PlayerCmd.volumeCmd volume :: r.cmds⟩
      | CmdResp.timeoutErr =>
        ⟨CallRet.exc CmdResp.timeoutErr, w, [PlayerCmd.volumeCmd volume]⟩
      | CmdResp.otherErr =>
        ⟨CallRet.exc CmdResp.otherErr, w, [PlayerCmd.volumeCmd volume]⟩

/-- The Skipper's mutable registry state: the tracked sessions keyed by pas
identifier, and the bounded ignore list. -/
structure SkipperState where
  media_sessions : List (String × MediaWrapper)
  ignored : List String
deriving DecidableEq, Repr

/-- removeSession (skipper.py lines 469-472). -/
def removeSession (st : SkipperState) (pasIdentifier : String) : SkipperState :=
  { st with media_sessions :=
      st.media_sessions.filter (fun e => e.1 != pasIdentifier) }

/-- The _seekTo worker (skipper.py lines 200-208): run seekPlayerTo and evict
the session exactly when an exception (timeout or otherwise) escapes it. -/
def seekToWorker (server : Server) (settings : Settings)
    (respond : Player → PlayerCmd → CmdResp) (st : SkipperState)
    (w : MediaWrapper) (targetOffset : Int) : SkipperState × CallResult :=
  let r := seekPlayerTo 4 server settings respond w.player w targetOffset
  match r.ret with
  | CallRet.ret _ => (st, r)
  | CallRet.exc _ => (removeSession st w.pasIdentifier, r)

/-- The _setVolume worker (skipper.py lines 256-264): run setPlayerVolume and
evict the session exactly when an exception escapes it. -/
def setVolumeWorker (server : Server) (settings : Settings)
    (respond : Player → PlayerCmd → CmdResp) (st : SkipperState)
    (w : MediaWrapper) (volume : Int) (lowering : Bool) :
    SkipperState × CallResult :=
  let r := setPlayerVolume 4 server settings respond w.player w volume lowering
  match r.ret with
  | CallRet.ret _ => (st, r)
  | CallRet.exc _ => (removeSession st w.pasIdentifier, r)

/-- One volume check of one session, sequentialized: the checkMediaVolume
decision (line 159) followed by the dispatched setPlayerVolume call. -/
def volumeCheckStep (server : Server) (settings : Settings)
    (respond : Player → PlayerCmd → CmdResp) (w : MediaWrapper)
    (leftOffset rightOffset : Int) : CallResult :=
  match checkMediaVolume settings w leftOffset rightOffset with
  | none => ⟨CallRet.ret true, w, []⟩
  | some (volume, lowering) =>
    setPlayerVolume 4 server settings respond w.player w volume lowering

/-- The direct registry effect of one checkMedia call: the staleness eviction
of lines 126-128 (the dispatched seek/volume workers run on their own threads
and act on the registry separately). -/
def checkMediaEffect (settings : Settings) (custom : CustomEntries)
    (st : SkipperState) (w : MediaWrapper) : SkipperState :=
  if (checkMedia settings custom w).removed then removeSession st w.pasIdentifier
  else st

/-- One pass of the control-loop body (skipper.py lines 101-102): checkMedia
over a snapshot of the tracked sessions. -/
def controlTick (settings : Settings) (custom : CustomEntries)
    (st : SkipperState) : SkipperState :=
  st.media_sessions.foldl (fun acc e => checkMediaEffect settings custom acc e.2) st

/-- blockedClientUser (skipper.py lines 345-368). -/
def blockedClientUser (custom : CustomEntries) (w : MediaWrapper) : Bool :=
  if custom.blockedUsers.any (fun b => w.usernames.contains b) then true
  else if !custom.allowedUsers.isEmpty &&
      !w.usernames.any (fun u => custom.allowedUsers.contains u) then true
  else if !custom.allowedClients.isEmpty &&
      (!custom.allowedClients.contains (playerTitle w) &&
       !custom.allowedClients.contains w.clientIdentifier) then true
  else if !custom.blockedClients.isEmpty &&
      (custom.blockedClients.contains (playerTitle w) ||
       custom.blockedClients.contains w.clientIdentifier) then true
  else false

/-- Membership of an optional ancestry key in a key list (skipper.py guards
the parent/grandparent checks with hasattr). -/
def optInKeys (k : Option Int) (keys : List Int) : Bool :=
  match k with
  | some key => keys.contains key
  | none => false

/-- The first-episode policy section of shouldAdd (skipper.py lines 394-409). -/
def firstEpisodeBlocked (settings : Settings) (media : Media) : Bool :=
  match media.episodeNumber with
  | none => false
  | some ep =>
    if ep == 1 && settings.skipE01 == SkipType.never then true
    else if ep == 1 && settings.skipE01 == SkipType.watched && !media.isWatched then
      true
    else if (match media.seasonNumber with
             | some sn => sn == 1
             | none => false) && ep == 1 &&
        settings.skipS01E01 == SkipType.never then true
    else if (match media.seasonNumber with
             | some sn => sn == 1
             | none => false) && ep == 1 &&
        settings.skipS01E01 == SkipType.watched && !media.isWatched then true
    else false

/-- shouldAdd (skipper.py lines 383-441): type list, ignored libraries, first
episode policies, interleaved key allow/block checks over the content key and
its ancestry, the allow-list requirement, and the unwatched policy. -/
def shouldAdd (settings : Settings) (custom : CustomEntries)
    (w : MediaWrapper) : Bool :=
  let media := w.media
  if !settings.types.contains media.type then false
  else if media.librarySectionTitle != "" &&
      settings.ignoredlibraries.contains media.librarySectionTitle.toLower then false
  else if firstEpisodeBlocked settings media then false
  else
    let allowed := custom.allowedKeys.contains media.ratingKey
    if custom.blockedKeys.contains media.ratingKey then false
    else
      let allowed := allowed || optInKeys media.parentRatingKey custom.allowedKeys
      if optInKeys media.parentRatingKey custom.blockedKeys then false
      else
        let allowed := allowed || optInKeys media.grandparentRatingKey custom.allowedKeys
        if optInKeys media.grandparentRatingKey custom.blockedKeys then false
        else if !custom.allowedKeys.isEmpty && !allowed then false
        else if !settings.skipunwatched && !media.isWatched then false
        else true

/-- Last `n` elements of a list (Python `ignored[-IGNORED_CAP:]`). -/
def takeLast (n : Nat) (l : List String) : List String :=
  l.drop (l.length - n)

/-- purgeOldSessions (skipper.py lines 462-467): remove the first tracked
session sharing the new session's player, by its own pas identifier. -/
def purgeOldSessions (st : SkipperState) (player : Player) : SkipperState :=
  match st.media_sessions.find?
      (fun e => e.2.clientIdentifier == player.machineIdentifier) with
  | some e => removeSession st e.2.pasIdentifier
  | none => st

/-- ignoreSession (skipper.py lines 456-460): purge sessions sharing the
player, then append to the capped ignore list. A wrapper with no player makes
the purge loop's attribute access raise before any mutation; the exception is
caught by processAlert, so the state is returned unchanged. -/
def ignoreSession (st : SkipperState) (w : MediaWrapper) : SkipperState :=
  match w.player with
  | none => st
  | some p =>
    let st := purgeOldSessions st p
    { st with ignored := takeLast IGNORED_CAP (st.ignored ++ [w.pasIdentifier]) }

/-- addSession (skipper.py lines 443-454), registry and ignore-list effects:
with an accessible valid player, purge sessions sharing the player, apply the
direct registry effect of the checkMedia call of line 450, then insert the
wrapper under its pas identifier; otherwise ignore the session. -/
def addSession (settings : Settings) (custom : CustomEntries)
    (st : SkipperState) (w : MediaWrapper) : SkipperState :=
  match w.player with
  | some p =>
    if validPlayer p then
      let st := purgeOldSessions st p
      let st := checkMediaEffect settings custom st w
      { st with media_sessions :=
          (w.pasIdentifier, w) :: (removeSession st w.pasIdentifier).media_sessions }
    else ignoreSession st w
  | none => ignoreSession st w

/-- The session record returned by the server for a session key: its location
and current view offset (`session = none` models a falsy session attribute). -/
structure PlexSessionRec where
  location : String
deriving DecidableEq, Repr

/-- The result of the getMediaSession server lookup (skipper.py lines 86-93);
the lookup itself returns none both for no match and for a caught error. -/
structure MediaSessionRec where
  session : Option PlexSessionRec
  viewOffset : Int
deriving DecidableEq, Repr

/-- One inbound alert payload as read by processAlert (skipper.py lines
311-316). -/
structure AlertData where
  type : String
  sessionKey : Int
  state : String
  clientIdentifier : String
  playQueueID : Int
deriving DecidableEq, Repr

/-- processAlert (skipper.py lines 311-343). The server-side session lookup is
abstracted as `lookup`; `mkWrapper` abstracts the MediaWrapper constructor of
line 326 (resources/mediaWrapper.py is not among the provided sources),
building the tracked-session record from the looked-up server session and the
alert fields. -/
def processAlert (settings : Settings) (custom : CustomEntries)
    (mkWrapper : MediaSessionRec → String → String → Int → MediaWrapper)
    (lookup : Int → Option MediaSessionRec) (st : SkipperState)
    (data : AlertData) : SkipperState :=
  if data.type != "playing" then st
  else
    let pasIdentifier := getSessionClientIdentifier data.sessionKey data.clientIdentifier
    if st.ignored.contains pasIdentifier then st
    else
      match lookup data.sessionKey with
      | none => st
      | some mediaSession =>
        match mediaSession.session with
        | none => st
        | some sess =>
          if sess.location == "lan" then
            match st.media_sessions.lookup pasIdentifier with
            | some w =>
              { st with media_sessions :=
                  (pasIdentifier, w.updateOffset mediaSession.viewOffset false) ::
                    (removeSession st pasIdentifier).media_sessions }
            | none =>
              let wrapper := mkWrapper mediaSession data.clientIdentifier
                data.state data.playQueueID
              if blockedClientUser custom wrapper then st
              else if shouldAdd settings custom wrapper then
                addSession settings custom st wrapper
              else if wrapper.customMarkers.length > 0 then
                addSession settings custom st { wrapper with customOnly := true }
              else ignoreSession st wrapper
          else st

/-- Whether a looked-up server session exists and reports a lan location
(the admission gate of skipper.py line 324). -/
def lanSession (r : Option MediaSessionRec) : Bool :=
  match r with
  | some ms =>
    match ms.session with
    | some s => s.location == "lan"
    | none => false
  | none => false

/-- First defined value in a priority-ordered list of optional decisions. -/
def firstSome : List (Option Int) → Option Int
  | [] => none
  | some x :: _ => some x
  | none :: rest => firstSome rest

/-- The custom-skip-marker source of the skip decision (lines 131-136). -/
def customSkipTarget (w : MediaWrapper) : Option Int :=
  ((w.customMarkers.filter (fun m => m.mode == ModeType.skip)).find? (fun m =>
      decide (m.start ≤ w.viewOffset) && decide (w.viewOffset ≤ m.«end»))).map
    (fun m => m.«end»)

/-- The last-chapter-shortcut source of the skip decision (lines 141-145),
gated on skip mode. -/
def lastchapterTarget (settings : Settings) (w : MediaWrapper) : Option Int :=
  if w.mode == ModeType.skip && skiplastchapterGate settings w &&
      lastchapterContains w then
    some w.media.duration
  else none

/-- The chapter source of the skip decision (lines 147-151), gated on skip
mode. -/
def chapterTarget (w : MediaWrapper) : Option Int :=
  if w.mode == ModeType.skip then
    (w.chapters.find? (fun c =>
        decide (c.start ≤ w.viewOffset) && decide (w.viewOffset ≤ c.«end»))).map
      (fun c => c.«end»)
  else none

/-- The server-marker source of the skip decision (lines 153-157), gated on
skip mode. -/
def markerTarget (w : MediaWrapper) (leftOffset rightOffset : Int) : Option Int :=
  if w.mode == ModeType.skip then
    (w.markers.find? (fun m =>
        decide (m.start + leftOffset ≤ w.viewOffset) &&
        decide (w.viewOffset ≤ m.«end»))).map
      (fun m => m.«end» + rightOffset)
  else none

/-- The skip decision in the precedence order the specification's testable
property states: custom ranges, then generated chapters, then server markers,
then the last-chapter shortcut. Written from the spec's words, for comparison
with checkMediaSkip. -/
def claimOrderSkip (settings : Settings) (w : MediaWrapper)
    (leftOffset rightOffset : Int) : Option Int :=
  firstSome [customSkipTarget w, chapterTarget w,
    markerTarget w leftOffset rightOffset, lastchapterTarget settings w]

/-
Concrete fixtures used by the counterexamples and witnesses.
-/

/-- A ten-minute episode with full ancestry, watched. -/
def baseMedia : Media :=
  { duration := 600000, type := "episode", ratingKey := 100,
    parentRatingKey := some 10, grandparentRatingKey := some 1,
    episodeNumber := some 5, seasonNumber := some 2, isWatched := true,
    librarySectionTitle := "TV Shows" }

/-- A proxied Roku player with a readable timeline. -/
def basePlayer : Player :=
  { product := "Plex for Roku", title := "Living Room",
    machineIdentifier := "machine-1", address := "192.168.1.20",
    baseurl := "http://proxy", version := some "9.0.0",
    timeline := some ⟨some 80⟩, proxyThroughServer := true }

/-- Global defaults: skip mode inputs, durationOffset 5000, skip-next on. -/
def baseSettings : Settings :=
  { leftOffset := 0, rightOffset := 0, durationOffset := 5000,
    skiplastchapter := 0, skipnext := true, volumelow := 10, volumehigh := 100,
    types := ["episode", "movie"], ignoredlibraries := [],
    skipE01 := SkipType.always, skipS01E01 := SkipType.always,
    skipunwatched := true }

/-- No operator lists configured. -/
def emptyCustom : CustomEntries := ⟨[], [], [], [], [], [], [], []⟩

/-- A freshly synced tracked session for baseMedia on basePlayer. -/
def baseWrapper : MediaWrapper :=
  { pasIdentifier := "12-client-1", clientIdentifier := "client-1",
    seeking := false, viewOffset := 0, media := baseMedia, leftOffset := 0,
    rightOffset := 0, customMarkers := [], chapters := [], markers := [],
    lastchapter := none, mode := ModeType.skip, sinceLastUpdate := 0,
    loweringVolume := false, cachedVolume := 0, playQueueID := 0,
    player := some basePlayer, usernames := ["alice"], customOnly := false }

/-- A server with no reachable play queues. -/
def emptyServer : Server := ⟨[], []⟩

/-- A player that answers every command with success. -/
def respondOk : Player → PlayerCmd → CmdResp := fun _ _ => CmdResp.ok

/-
C4 — while `seeking` is true, a control-loop check dispatches nothing.
-/

/-- C4: for every tracked session whose seeking flag is true, checkMedia
returns immediately: no seek target, no volume command, no skip-next seek and
no staleness eviction are produced. -/
theorem C4_seeking_guard (settings : Settings) (custom : CustomEntries)
    (w : MediaWrapper) (h : w.seeking = true) :
    checkMedia settings custom w = ⟨[], [], false⟩ := by
  simp [checkMedia, h]

/-- A seeking session deep in end-of-playback territory. -/
def wrapperC4 : MediaWrapper :=
  { baseWrapper with seeking := true, viewOffset := 595000 }

/-- C4 witness: the guard theorem applied to a concrete seeking session that
would otherwise trigger the end-of-playback skip. -/
theorem C4_witness :
    wrapperC4.seeking = true ∧
      checkMedia baseSettings emptyCustom wrapperC4 = ⟨[], [], false⟩ :=
  ⟨rfl, C4_seeking_guard baseSettings emptyCustom wrapperC4 rfl⟩

/-
C1 — end-of-playback dispatch at 590000ms of 600000ms with durationOffset
5000.
-/

/-- The claimed scenario verbatim: viewOffset 590000 of duration 600000. -/
def wrapperC1at590 : MediaWrapper := { baseWrapper with viewOffset := 590000 }

/-- C1 counterexample: in the claimed scenario (viewOffset 590000, duration
600000, durationOffset 5000, skip-next enabled, seeking false) the
control-loop check dispatches nothing at all, because 590000 is below
600000 - 5000 = 595000; in particular no advance-to-next is dispatched. -/
theorem C1_counterexample :
    baseSettings.durationOffset = 5000 ∧ baseSettings.skipnext = true ∧
    wrapperC1at590.viewOffset = 590000 ∧
    wrapperC1at590.media.duration = 600000 ∧
    wrapperC1at590.seeking = false ∧
    checkMedia baseSettings emptyCustom wrapperC1at590 = ⟨[], [], false⟩ :=
  ⟨rfl, rfl, rfl, rfl, rfl, rfl⟩

/-- The same session at viewOffset 595000, the least offset at which the
end-of-playback check fires. -/
def wrapperC1 : MediaWrapper := { baseWrapper with viewOffset := 595000 }

/-- wrapperC1 with a reachable play queue id. -/
def wrapperC1q : MediaWrapper :=
  { baseWrapper with viewOffset := 595000, playQueueID := 7 }

/-- A server whose play queue 7 ends with the session's own media item. -/
def serverC1q : Server := ⟨[(7, [baseMedia])], []⟩

/-- C1 amended: at viewOffset 595000 (at or above duration - durationOffset =
595000) with skip-next permitted and seeking false, the control-loop check
dispatches a seek to the duration; the dispatched call sends an
advance-to-next command when no reachable play queue ends with the current
content, and a plain seek to 600000 when the client's play queue is reachable
and its last item equals the current content. -/
theorem C1_amended_dispatch :
    (checkMedia baseSettings emptyCustom wrapperC1).seekTargets = [600000] ∧
    (seekPlayerTo 4 emptyServer baseSettings respondOk (some basePlayer)
        wrapperC1 600000).cmds = [PlayerCmd.skipNextCmd] ∧
    (seekPlayerTo 4 serverC1q baseSettings respondOk (some basePlayer)
        wrapperC1q 600000).cmds = [PlayerCmd.seekCmd 600000] :=
  ⟨rfl, rfl, rfl⟩

/-
C5 — the pre-send clamp.
-/

/-- C5 counterexample: a negative seek target is sent to the player unchanged;
no lower clamp to 0 exists. -/
theorem C5_counterexample :
    (seekPlayerTo 4 emptyServer baseSettings respondOk (some basePlayer)
        baseWrapper (-100)).cmds = [PlayerCmd.seekCmd (-100)] ∧
      (-100 : Int) < 0 :=
  ⟨rfl, by decide⟩

/-- C5 amended: before sending, a target greater than a nonzero media duration
is reduced to the duration, and every other target — a negative one included —
is sent unchanged; outside the skip-next special case the first command sent
is a seek to exactly the clamped target. -/
theorem C5_amended_clamp (fuel : Nat) (server : Server) (settings : Settings)
    (respond : Player → PlayerCmd → CmdResp) (p : Player) (w : MediaWrapper)
    (t : Int) (hsn : settings.skipnext = false) :
    (w.media.duration ≠ 0 → t > w.media.duration →
      clampTarget w t = w.media.duration) ∧
    (t ≤ w.media.duration ∨ w.media.duration = 0 → clampTarget w t = t) ∧
    (seekPlayerTo (fuel + 1) server settings respond (some p) w t).cmds.head?
      = some (PlayerCmd.seekCmd (clampTarget w t)) := by
  refine ⟨?_, ?_, ?_⟩
  · intro h0 hgt
    simp [clampTarget, h0, hgt]
  · intro h
    rcases h with h | h
    · have : ¬ (t > w.media.duration) := not_lt.mpr h
      simp [clampTarget, this]
    · simp [clampTarget, h]
  · simp only [seekPlayerTo, hsn, Bool.false_and, if_false]
    cases respond p (PlayerCmd.seekCmd (clampTarget w t)) <;> rfl

/-- C5 witness: the amended clamp theorem applied at duration 600000 with the
overshooting target 700000 and the negative target -100. -/
theorem C5_witness :
    clampTarget baseWrapper 700000 = 600000 ∧
    clampTarget baseWrapper (-100) = (-100) ∧
    (seekPlayerTo 4 emptyServer { baseSettings with skipnext := false }
        respondOk (some basePlayer) baseWrapper 700000).cmds.head?
      = some (PlayerCmd.seekCmd 600000) := by
  refine ⟨?_, ?_, ?_⟩
  · exact (C5_amended_clamp 3 emptyServer { baseSettings with skipnext := false }
      respondOk basePlayer baseWrapper 700000 rfl).1 (by decide) (by decide)
  · exact (C5_amended_clamp 3 emptyServer { baseSettings with skipnext := false }
      respondOk basePlayer baseWrapper (-100) rfl).2.1 (Or.inl (by decide))
  · have h := (C5_amended_clamp 3 emptyServer { baseSettings with skipnext := false }
      respondOk basePlayer baseWrapper 700000 rfl).2.2
    simpa using h

/-
Registry bookkeeping lemmas shared by the admission and staleness proofs.
-/

/-- Filtering a session list never makes an absent key present. -/
theorem lookup_none_of_filter (k : String) (p : String × MediaWrapper → Bool)
    (l : List (String × MediaWrapper)) (h : l.lookup k = none) :
    (l.filter p).lookup k = none := by
  induction l with
  | nil => simp
  | cons e es ih =>
    rcases e with ⟨a, b⟩
    rw [List.filter_cons]
    cases hka : (k == a) with
    | true => simp [List.lookup, hka] at h
    | false =>
      simp only [List.lookup, hka] at h
      by_cases hp : p (a, b) = true
      · simp only [hp, if_true, List.lookup, hka]
        exact ih h
      · simp only [eq_false_of_ne_true hp, if_false]
        exact ih h

/-- removeSession never makes an absent key present. -/
theorem lookup_none_removeSession (st : SkipperState) (q k : String)
    (h : st.media_sessions.lookup k = none) :
    (removeSession st q).media_sessions.lookup k = none :=
  lookup_none_of_filter k _ st.media_sessions h

/-- Filtering out a key makes it absent. -/
theorem lookup_filter_ne_self (k : String) (l : List (String × MediaWrapper)) :
    (l.filter (fun e => e.1 != k)).lookup k = none := by
  induction l with
  | nil => simp
  | cons e es ih =>
    rcases e with ⟨a, b⟩
    rw [List.filter_cons]
    by_cases ha : a = k
    · have hne : ((a, b).1 != k) = false := by simp [ha]
      rw [hne]
      simp only [Bool.false_eq_true, if_false]
      exact ih
    · have hne : ((a, b).1 != k) = true := by simp [ha]
      rw [hne]
      have hka : (k == a) = false := by simp [Ne.symm ha]
      simp only [if_true, List.lookup, hka]
      exact ih

/-- Removing a session makes its own key absent. -/
theorem lookup_removeSession_self (st : SkipperState) (k : String) :
    (removeSession st k).media_sessions.lookup k = none :=
  lookup_filter_ne_self k st.media_sessions

/-- purgeOldSessions never makes an absent key present. -/
theorem lookup_none_purge (st : SkipperState) (p : Player) (k : String)
    (h : st.media_sessions.lookup k = none) :
    (purgeOldSessions st p).media_sessions.lookup k = none := by
  unfold purgeOldSessions
  cases hf : st.media_sessions.find?
      (fun e => e.2.clientIdentifier == p.machineIdentifier) with
  | none => exact h
  | some e => exact lookup_none_removeSession st e.2.pasIdentifier k h

/-- ignoreSession never touches the tracked-session map except through the
purge, so it never makes an absent key present. -/
theorem lookup_none_ignore (st : SkipperState) (w : MediaWrapper) (k : String)
    (h : st.media_sessions.lookup k = none) :
    (ignoreSession st w).media_sessions.lookup k = none := by
  unfold ignoreSession
  cases w.player with
  | none => exact h
  | some p => exact lookup_none_purge st p k h

/-
C9 — broken-client admission.
-/

/-- Plex for Windows at the exactly-broken version 1.46.1. -/
def playerWin1461 : Player :=
  { basePlayer with product := "Plex for Windows", version := some "1.46.1" }

/-- Plex for Windows one version below the broken threshold. -/
def playerWin1460 : Player :=
  { basePlayer with product := "Plex for Windows", version := some "1.46.0" }

/-- The baseWrapper session played on the broken Windows client. -/
def wrapperC9bad : MediaWrapper := { baseWrapper with player := some playerWin1461 }

/-- The baseWrapper session played on the still-working Windows client. -/
def wrapperC9ok : MediaWrapper := { baseWrapper with player := some playerWin1460 }

/-- C9: a session whose player's product is in BROKEN_CLIENTS with a reported
version at or above the table's threshold (dotted numeric comparison) is never
admitted by addSession — its key stays absent from the registry; concretely,
Plex for Windows 1.46.1 is an invalid player while 1.46.0 is valid, and the
valid one is admitted. -/
theorem C9_broken_clients (settings : Settings) (custom : CustomEntries)
    (st : SkipperState) (w : MediaWrapper) (p : Player) (bad : String)
    (hp : w.player = some p) (htab : BROKEN_CLIENTS p.product = some bad)
    (hver : ∃ v, p.version = some v ∧
      versionGe (parseVersion v) (parseVersion bad) = true)
    (habs : st.media_sessions.lookup w.pasIdentifier = none) :
    (addSession settings custom st w).media_sessions.lookup w.pasIdentifier
        = none ∧
      validPlayer playerWin1461 = false ∧ validPlayer playerWin1460 = true ∧
      (addSession baseSettings emptyCustom ⟨[], []⟩ wrapperC9ok).media_sessions.lookup
          "12-client-1" = some wrapperC9ok := by
  refine ⟨?_, rfl, rfl, rfl⟩
  have hval : validPlayer p = false := by
    rcases hver with ⟨v, hv, hge⟩
    simp [validPlayer, htab, hv, hge]
  have hig := lookup_none_ignore st w w.pasIdentifier habs
  simp only [addSession, hp, hval, Bool.false_eq_true, if_false]
  exact hig

/-- C9 witness: the theorem applied to the broken Windows 1.46.1 player on an
empty registry. -/
theorem C9_witness :
    validPlayer playerWin1461 = false ∧
      (addSession baseSettings emptyCustom ⟨[], []⟩ wrapperC9bad).media_sessions.lookup
        "12-client-1" = none := by
  have h := C9_broken_clients baseSettings emptyCustom ⟨[], []⟩ wrapperC9bad
    playerWin1461 "1.46.1" rfl rfl ⟨"1.46.1", rfl, by decide⟩ rfl
  exact ⟨h.2.1, h.1⟩

/-
C10 — the lan-location admission gate of processAlert.
-/

/-- C10: a playing event whose server-side session lookup fails, reports no
session, or reports a location other than lan leaves the whole state
untouched: no registry entry is created or updated and the identity is not
added to the ignore list, so a later event for the same identity is
re-evaluated from scratch. -/
theorem C10_lan_gate (settings : Settings) (custom : CustomEntries)
    (mkWrapper : MediaSessionRec → String → String → Int → MediaWrapper)
    (lookup : Int → Option MediaSessionRec) (st : SkipperState)
    (data : AlertData) (htype : data.type = "playing")
    (hlan : lanSession (lookup data.sessionKey) = false) :
    processAlert settings custom mkWrapper lookup st data = st := by
  unfold processAlert
  rw [htype]
  simp only [bne_self_eq_false, Bool.false_eq_true, if_false]
  cases hign : st.ignored.contains
      (getSessionClientIdentifier data.sessionKey data.clientIdentifier) with
  | true => simp only [hign, if_true]
  | false =>
    simp only [hign, Bool.false_eq_true, if_false]
    cases hms : lookup data.sessionKey with
    | none => simp only [hms]
    | some ms =>
      simp only [hms]
      cases hs : ms.session with
      | none => simp only [hs]
      | some s =>
        simp only [hs]
        have hloc : (s.location == "lan") = false := by
          have h := hlan
          rw [hms] at h
          simp only [lanSession, hs] at h
          exact h
        simp only [hloc, Bool.false_eq_true, if_false]

/-- A server lookup reporting a wan session for every key. -/
def lookupWan : Int → Option MediaSessionRec := fun _ => some ⟨some ⟨"wan"⟩, 100⟩

/-- A wrapper constructor stub for the C10 witness (never reached under a
non-lan lookup). -/
def mkWrapperC10 : MediaSessionRec → String → String → Int → MediaWrapper :=
  fun _ _ _ _ => baseWrapper

/-- A playing event fixture. -/
def alertC10 : AlertData :=
  { type := "playing", sessionKey := 12, state := "playing",
    clientIdentifier := "client-1", playQueueID := 0 }

/-- A one-session state fixture. -/
def stC10 : SkipperState := ⟨[("9-client-9", baseWrapper)], ["5-client-5"]⟩

/-- C10 witness: the gate theorem applied to a wan-located lookup leaves the
concrete state unchanged. -/
theorem C10_witness :
    lanSession (lookupWan alertC10.sessionKey) = false ∧
      processAlert baseSettings emptyCustom mkWrapperC10 lookupWan stC10 alertC10
        = stC10 :=
  ⟨rfl, C10_lan_gate baseSettings emptyCustom mkWrapperC10 lookupWan stC10
    alertC10 rfl rfl⟩

/-
C7 — staleness eviction on a control-loop tick.
-/

/-- Outside the seeking early return, the staleness decision of one checkMedia
call is exactly the 30-second comparison of line 126. -/
theorem checkMedia_removed (settings : Settings) (custom : CustomEntries)
    (w : MediaWrapper) (hseek : w.seeking = false) :
    (checkMedia settings custom w).removed = decide (w.sinceLastUpdate > TIMEOUT) := by
  simp [checkMedia, hseek]

/-- The per-session registry effect never makes an absent key present. -/
theorem lookup_none_effect (settings : Settings) (custom : CustomEntries)
    (acc : SkipperState) (v : MediaWrapper) (k : String)
    (h : acc.media_sessions.lookup k = none) :
    (checkMediaEffect settings custom acc v).media_sessions.lookup k = none := by
  unfold checkMediaEffect
  split
  · exact lookup_none_removeSession acc v.pasIdentifier k h
  · exact h

/-- Folding the per-session registry effect over any snapshot never makes an
absent key present. -/
theorem lookup_none_fold (settings : Settings) (custom : CustomEntries)
    (l : List (String × MediaWrapper)) :
    ∀ (acc : SkipperState) (k : String), acc.media_sessions.lookup k = none →
      (l.foldl (fun a e => checkMediaEffect settings custom a e.2) acc).media_sessions.lookup k
        = none := by
  induction l with
  | nil => intro acc k h; exact h
  | cons e es ih =>
    intro acc k h
    rw [List.foldl_cons]
    exact ih _ k (lookup_none_effect settings custom acc e.2 k h)

/-- Folding the per-session effect over a snapshot containing a non-seeking
stale session removes that session's key. -/
theorem fold_removes_stale (settings : Settings) (custom : CustomEntries)
    (w : MediaWrapper) (hseek : w.seeking = false)
    (hstale : w.sinceLastUpdate > TIMEOUT) :
    ∀ (l : List (String × MediaWrapper)) (acc : SkipperState),
      (w.pasIdentifier, w) ∈ l →
      (l.foldl (fun a e => checkMediaEffect settings custom a e.2) acc).media_sessions.lookup
          w.pasIdentifier = none := by
  intro l
  induction l with
  | nil => intro acc hmem; cases hmem
  | cons e es ih =>
    intro acc hmem
    rw [List.foldl_cons]
    rcases List.mem_cons.mp hmem with he | he
    · have heff : checkMediaEffect settings custom acc e.2
          = removeSession acc w.pasIdentifier := by
        rw [← he]
        unfold checkMediaEffect
        rw [checkMedia_removed settings custom w hseek, decide_eq_true hstale]
        simp
      rw [heff]
      exact lookup_none_fold settings custom es _ w.pasIdentifier
        (lookup_removeSession_self acc w.pasIdentifier)
    · exact ih (checkMediaEffect settings custom acc e.2) he

/-- C7 amended: on a control-loop tick, every tracked session that is not
seeking and whose last update is older than the 30-second TIMEOUT is removed
from the registry, even when no new events for it arrive; a session whose
seeking flag is set is exempt, because checkMedia returns before the
staleness check. -/
theorem C7_amended_staleness (settings : Settings) (custom : CustomEntries)
    (st : SkipperState) (w : MediaWrapper)
    (hmem : (w.pasIdentifier, w) ∈ st.media_sessions)
    (hseek : w.seeking = false) (hstale : w.sinceLastUpdate > TIMEOUT) :
    (controlTick settings custom st).media_sessions.lookup w.pasIdentifier = none :=
  fold_removes_stale settings custom w hseek hstale st.media_sessions st hmem

/-- A stale session stuck with its seeking flag set. -/
def wrapperC7seek : MediaWrapper :=
  { baseWrapper with seeking := true, sinceLastUpdate := 31 }

/-- A registry holding only the stale seeking session. -/
def stC7seek : SkipperState := ⟨[("12-client-1", wrapperC7seek)], []⟩

/-- C7 counterexample: a tracked session 31 seconds past its last update
survives the tick when its seeking flag is set, so not every session older
than the timeout is removed on that tick. -/
theorem C7_counterexample :
    wrapperC7seek.sinceLastUpdate > TIMEOUT ∧
      (controlTick baseSettings emptyCustom stC7seek).media_sessions.lookup
        "12-client-1" = some wrapperC7seek :=
  ⟨by decide, rfl⟩

/-- The same stale session with the seeking flag clear. -/
def wrapperC7stale : MediaWrapper := { baseWrapper with sinceLastUpdate := 31 }

/-- A registry holding only the stale non-seeking session. -/
def stC7stale : SkipperState := ⟨[("12-client-1", wrapperC7stale)], []⟩

/-- C7 witness: the amended staleness theorem applied to a concrete stale
non-seeking session, which the tick evicts. -/
theorem C7_witness :
    wrapperC7stale.sinceLastUpdate > TIMEOUT ∧
      (controlTick baseSettings emptyCustom stC7stale).media_sessions.lookup
        "12-client-1" = none := by
  refine ⟨by decide, ?_⟩
  exact C7_amended_staleness baseSettings emptyCustom stC7stale wrapperC7stale
    (List.mem_cons_self _ _) rfl (by decide)

/-
C2 — precedence among the skip-marker sources.
-/

/-- The skip decision factored as a priority list in the order the source
implements: custom ranges, then the last-chapter shortcut, then generated
chapters, then server markers. -/
def sourceOrderSkip (settings : Settings) (w : MediaWrapper)
    (leftOffset rightOffset : Int) : Option Int :=
  firstSome [customSkipTarget w, lastchapterTarget settings w, chapterTarget w,
    markerTarget w leftOffset rightOffset]

/-- C2 amended: for every position, the skip check picks the winning source in
the order custom skip ranges, then the last-chapter shortcut, then generated
chapter ranges, then server markers — the first matching source determines the
seek target (the claimed order placed the last-chapter shortcut last; the
source consults it right after the custom ranges). -/
theorem C2_amended_precedence (settings : Settings) (w : MediaWrapper)
    (l r : Int) :
    checkMediaSkip settings w l r = sourceOrderSkip settings w l r := by
  simp only [checkMediaSkip, sourceOrderSkip, customSkipTarget,
    lastchapterTarget, chapterTarget, markerTarget]
  cases hc : (w.customMarkers.filter (fun m => m.mode == ModeType.skip)).find?
      (fun m => decide (m.start ≤ w.viewOffset) &&
        decide (w.viewOffset ≤ m.«end»)) with
  | some m => simp [firstSome]
  | none =>
    simp only [Option.map_none']
    cases hmode : (w.mode == ModeType.skip) with
    | false =>
      have hne : (w.mode != ModeType.skip) = true := by simp [bne, hmode]
      simp [hne, hmode, firstSome]
    | true =>
      have hne : (w.mode != ModeType.skip) = false := by simp [bne, hmode]
      simp only [hne, Bool.false_eq_true, if_false, hmode, Bool.true_and,
        firstSome]
      by_cases hg : (skiplastchapterGate settings w && lastchapterContains w)
          = true
      · simp [hg, firstSome]
      · simp only [eq_false_of_ne_true hg, Bool.false_eq_true, if_false,
          if_true, firstSome]
        cases hch : w.chapters.find? (fun c => decide (c.start ≤ w.viewOffset)
            && decide (w.viewOffset ≤ c.«end»)) with
        | some c => simp [firstSome]
        | none =>
          simp only [Option.map_none', firstSome]
          cases hm : w.markers.find? (fun m =>
              decide (m.start + l ≤ w.viewOffset) &&
              decide (w.viewOffset ≤ m.«end»)) with
          | some mk => simp [firstSome]
          | none => simp [firstSome]

/-- A session inside both a skippable chapter (540000-560000) and a gated
final chapter (550000-600000). -/
def wrapperC2 : MediaWrapper :=
  { baseWrapper with
    viewOffset := 555000
    chapters := [⟨540000, 560000, "ad"⟩]
    lastchapter := some ⟨550000, 600000, "finale"⟩ }

/-- Settings with the skip-last-chapter threshold at 9/10 (the final chapter
starts at 11/12 of the duration, exceeding it). -/
def settingsC2 : Settings := { baseSettings with skiplastchapter := 9/10 }

/-- With no matching custom marker, skip mode, and the position inside the
gated final chapter, the skip check seeks to the duration. -/
theorem checkMediaSkip_lastchapter (settings : Settings) (w : MediaWrapper)
    (l r : Int)
    (hc : (w.customMarkers.filter (fun m => m.mode == ModeType.skip)).find?
      (fun m => decide (m.start ≤ w.viewOffset) &&
        decide (w.viewOffset ≤ m.«end»)) = none)
    (hmode : w.mode = ModeType.skip)
    (hg : skiplastchapterGate settings w = true)
    (hcont : lastchapterContains w = true) :
    checkMediaSkip settings w l r = some w.media.duration := by
  simp [checkMediaSkip, hc, hmode, hg, hcont]

/-- The skip-last-chapter gate holds on the C2 fixture: 550000/600000 exceeds
the 9/10 threshold. -/
theorem settingsC2_gate : skiplastchapterGate settingsC2 wrapperC2 = true := by
  simp only [skiplastchapterGate, settingsC2, wrapperC2, baseSettings,
    baseWrapper, baseMedia, Bool.and_eq_true, Bool.not_eq_true',
    beq_eq_false_iff_ne, decide_eq_true_eq]
  norm_num

/-- C2 counterexample: with the position inside both a generated chapter and
the gated final chapter, the code seeks to the duration (last-chapter
shortcut wins), while the claimed order — chapters before the last-chapter
shortcut — would seek to the chapter's end 560000. -/
theorem C2_counterexample :
    checkMediaSkip settingsC2 wrapperC2 0 0 = some 600000 ∧
      claimOrderSkip settingsC2 wrapperC2 0 0 = some 560000 := by
  refine ⟨?_, rfl⟩
  exact checkMediaSkip_lastchapter settingsC2 wrapperC2 0 0 rfl rfl
    settingsC2_gate (by decide)

/-
C3 — the recover-and-retry protocol of the seek and volume dispatchers.
-/

/-- Clamping is unaffected by the optimistic offset update (the media record
is unchanged). -/
theorem clampTarget_updateOffset (w : MediaWrapper) (x t : Int) (s : Bool) :
    clampTarget (w.updateOffset x s) t = clampTarget w t := rfl

/-- The optimistic offset update is idempotent. -/
theorem updateOffset_idem (w : MediaWrapper) (t : Int) (s : Bool) :
    (w.updateOffset t s).updateOffset t s = w.updateOffset t s := rfl

/-- The pre-send clamp is idempotent. -/
theorem clampTarget_idem (w : MediaWrapper) (t : Int) :
    clampTarget w (clampTarget w t) = clampTarget w t := by
  by_cases h : (w.media.duration != 0 && decide (t > w.media.duration)) = true
  · have h1 : clampTarget w t = w.media.duration := by
      unfold clampTarget
      rw [if_pos h]
    rw [h1]
    unfold clampTarget
    simp
  · have h1 : clampTarget w t = t := by
      unfold clampTarget
      rw [if_neg h]
    rw [h1, h1]

/-- Updating the volume state twice with the same arguments equals updating it
once. -/
theorem updateVolume_idem (w : MediaWrapper) (v pv : Int) (b : Bool) :
    (w.updateVolume v pv b).updateVolume v pv b = w.updateVolume v pv b := by
  cases b
  · rfl
  · rfl

/-- The command seekPlayerTo sends for a given session and target (skipper.py
lines 218-241): the clamped seek outside the skip-next case; inside it either
skip-next or, when a reachable play queue ends with the current content, the
plain clamped seek; none models the escaping IndexError of an empty play
queue, where nothing is sent. -/
def sentCmd (server : Server) (settings : Settings) (w : MediaWrapper)
    (t : Int) : Option PlayerCmd :=
  let targetOffset := clampTarget w t
  if settings.skipnext &&
      decide (targetOffset ≥ w.media.duration - settings.durationOffset) then
    if w.playQueueID != 0 then
      match server.playQueues.lookup w.playQueueID with
      | some items =>
        match items.getLast? with
        | none => none
        | some lastItem =>
          if lastItem == w.media then some (PlayerCmd.seekCmd targetOffset)
          else some PlayerCmd.skipNextCmd
      | none => some PlayerCmd.skipNextCmd
    else some PlayerCmd.skipNextCmd
  else some (PlayerCmd.seekCmd targetOffset)

/-- The chosen command is unaffected by the optimistic offset update. -/
theorem sentCmd_updateOffset (server : Server) (settings : Settings)
    (w : MediaWrapper) (x t : Int) (s : Bool) :
    sentCmd server settings (w.updateOffset x s) t
      = sentCmd server settings w t := rfl

/-- Re-dispatching the already-clamped target chooses the same command. -/
theorem sentCmd_clamped (server : Server) (settings : Settings)
    (w : MediaWrapper) (t : Int) :
    sentCmd server settings w (clampTarget w t)
      = sentCmd server settings w t := by
  unfold sentCmd
  rw [clampTarget_idem]

/-- One unfolding of seekPlayerTo when a command goes out: the chosen command
is sent once and the response decides between success, recover-and-retry
(against the recovered player, with the clamped target), and an escaping
exception. -/
theorem seekPlayerTo_send (f : Nat) (server : Server) (settings : Settings)
    (respond : Player → PlayerCmd → CmdResp) (q : Player) (w : MediaWrapper)
    (t : Int) (cmd : PlayerCmd)
    (hcmd : sentCmd server settings w t = some cmd) :
    seekPlayerTo (f + 1) server settings respond (some q) w t =
      match respond q cmd with
      | CmdResp.ok =>
        ⟨CallRet.ret true, w.updateOffset (clampTarget w t) true, [cmd]⟩
      | CmdResp.parseError =>
        ⟨CallRet.ret true, w.updateOffset (clampTarget w t) true, [cmd]⟩
      | CmdResp.badRequest =>
        let r := seekPlayerTo f server settings respond (recoverPlayer server q)
          (w.updateOffset (clampTarget w t) true) (clampTarget w t)
        ⟨r.ret, r.wrapper, cmd :: r.cmds⟩
      | CmdResp.timeoutErr =>
        ⟨CallRet.exc CmdResp.timeoutErr, w.updateOffset (clampTarget w t) true,
          [cmd]⟩
      | CmdResp.otherErr =>
        ⟨CallRet.exc CmdResp.otherErr, w.updateOffset (clampTarget w t) true,
          [cmd]⟩ := by
  have hmedia : ∀ (x : Int) (s : Bool),
      (MediaWrapper.updateOffset w x s).media = w.media := fun _ _ => rfl
  have hpqid : ∀ (x : Int) (s : Bool),
      (MediaWrapper.updateOffset w x s).playQueueID = w.playQueueID :=
    fun _ _ => rfl
  simp only [sentCmd] at hcmd
  simp only [seekPlayerTo, hmedia, hpqid]
  by_cases h1 : (settings.skipnext &&
      decide (clampTarget w t ≥ w.media.duration - settings.durationOffset))
      = true
  · rw [if_pos h1] at hcmd
    rw [if_pos h1]
    by_cases h2 : (w.playQueueID != 0) = true
    · rw [if_pos h2] at hcmd
      rw [if_pos h2]
      cases hlk : server.playQueues.lookup w.playQueueID with
      | none =>
        simp only [hlk] at hcmd ⊢
        injection hcmd with hc
        subst hc
        rfl
      | some items =>
        simp only [hlk] at hcmd ⊢
        cases hgl : items.getLast? with
        | none =>
          simp only [hgl] at hcmd
          exact Option.noConfusion hcmd
        | some lastItem =>
          simp only [hgl] at hcmd ⊢
          by_cases h3 : (lastItem == w.media) = true
          · rw [if_pos h3] at hcmd
            rw [if_pos h3]
            injection hcmd with hc
            subst hc
            rfl
          · rw [if_neg h3] at hcmd
            rw [if_neg h3]
            injection hcmd with hc
            subst hc
            rfl
    · rw [if_neg h2] at hcmd
      rw [if_neg h2]
      injection hcmd with hc
      subst hc
      rfl
  · rw [if_neg h1] at hcmd
    rw [if_neg h1]
    injection hcmd with hc
    subst hc
    rfl

/-- The previous-volume capture of setPlayerVolume (skipper.py lines 270-275):
the player's timeline volume when readable, else the configured high/low
fallback. -/
def capturedPreviousVolume (settings : Settings) (p : Player)
    (lowering : Bool) : Int :=
  let fallback := if lowering then settings.volumehigh else settings.volumelow
  match p.timeline with
  | some tl =>
    match tl.volume with
    | some v => v
    | none => fallback
  | none => fallback

/-- One unfolding of setPlayerVolume: the volume command is sent once and the
response decides between success, recover-and-retry, and an escaping
exception. -/
theorem setPlayerVolume_step (f : Nat) (server : Server) (settings : Settings)
    (respond : Player → PlayerCmd → CmdResp) (q : Player) (w : MediaWrapper)
    (v : Int) (lowering : Bool) :
    setPlayerVolume (f + 1) server settings respond (some q) w v lowering =
      match respond q (PlayerCmd.volumeCmd v) with
      | CmdResp.ok =>
        ⟨CallRet.ret true,
          w.updateVolume v (capturedPreviousVolume settings q lowering) lowering,
          [PlayerCmd.volumeCmd v]⟩
      | CmdResp.parseError =>
        ⟨CallRet.ret true,
          w.updateVolume v (capturedPreviousVolume settings q lowering) lowering,
          [PlayerCmd.volumeCmd v]⟩
      | CmdResp.badRequest =>
        let r := setPlayerVolume f server settings respond
          (recoverPlayer server q)
          (w.updateVolume v (capturedPreviousVolume settings q lowering) lowering)
          v lowering
        ⟨r.ret, r.wrapper, PlayerCmd.volumeCmd v :: r.cmds⟩
      | CmdResp.timeoutErr =>
        ⟨CallRet.exc CmdResp.timeoutErr,
          w.updateVolume v (capturedPreviousVolume settings q lowering) lowering,
          [PlayerCmd.volumeCmd v]⟩
      | CmdResp.otherErr =>
        ⟨CallRet.exc CmdResp.otherErr,
          w.updateVolume v (capturedPreviousVolume settings q lowering) lowering,
          [PlayerCmd.volumeCmd v]⟩ := rfl

/-- A player handed out by recoverPlayer is no longer proxied, so a second
recovery attempt on it yields nothing. -/
theorem recoverPlayer_idem (server : Server) (p q : Player)
    (hq : recoverPlayer server p = some q) :
    recoverPlayer server q = none := by
  unfold recoverPlayer at hq
  split at hq
  · exact absurd hq (by simp)
  · split at hq
    · exact absurd hq (by simp)
    · rename_i h1 h2
      injection hq with hq
      subst hq
      unfold recoverPlayer
      rw [if_neg h1]
      simp

/-- recoverPlayer only rewrites the control endpoint and the proxy flag; the
recovered player keeps the original timeline. -/
theorem recoverPlayer_timeline (server : Server) (p q : Player)
    (hq : recoverPlayer server p = some q) : q.timeline = p.timeline := by
  unfold recoverPlayer at hq
  split at hq
  · exact absurd hq (by simp)
  · split at hq
    · exact absurd hq (by simp)
    · injection hq with hq
      subst hq
      rfl

/-- C3 amended: a seek or volume command rejected with the explicit
player-not-found/forbidden error triggers exactly one recovery attempt
through recoverPlayer and re-issues the same command against the recovered
client; a timeout at any point evicts the session; but when recovery yields
no usable client, or the retried command is rejected the same way again, the
call returns false and the session is NOT evicted — it stays in the registry
and is simply not retried further. Stated for an arbitrary configuration: the
seek command is whatever sentCmd chooses (plain seek or skip-next), and the
volume path needs no side condition at all. -/
theorem C3_amended_recovery (server : Server) (settings : Settings)
    (respond : Player → PlayerCmd → CmdResp) (st : SkipperState)
    (w : MediaWrapper) (p : Player) (t : Int) (cmd : PlayerCmd) (v : Int)
    (lowering : Bool) (hp : w.player = some p)
    (hcmd : sentCmd server settings w t = some cmd) :
    (respond p cmd = CmdResp.badRequest → recoverPlayer server p = none →
      seekToWorker server settings respond st w t
        = (st, ⟨CallRet.ret false, w.updateOffset (clampTarget w t) true,
            [cmd]⟩)) ∧
    (∀ q, respond p cmd = CmdResp.badRequest →
      recoverPlayer server p = some q → respond q cmd = CmdResp.ok →
      seekToWorker server settings respond st w t
        = (st, ⟨CallRet.ret true, w.updateOffset (clampTarget w t) true,
            [cmd, cmd]⟩)) ∧
    (∀ q, respond p cmd = CmdResp.badRequest →
      recoverPlayer server p = some q → respond q cmd = CmdResp.badRequest →
      seekToWorker server settings respond st w t
        = (st, ⟨CallRet.ret false, w.updateOffset (clampTarget w t) true,
            [cmd, cmd]⟩)) ∧
    (respond p cmd = CmdResp.timeoutErr →
      seekToWorker server settings respond st w t
        = (removeSession st w.pasIdentifier,
            ⟨CallRet.exc CmdResp.timeoutErr,
              w.updateOffset (clampTarget w t) true, [cmd]⟩)) ∧
    (∀ q, respond p cmd = CmdResp.badRequest →
      recoverPlayer server p = some q → respond q cmd = CmdResp.timeoutErr →
      seekToWorker server settings respond st w t
        = (removeSession st w.pasIdentifier,
            ⟨CallRet.exc CmdResp.timeoutErr,
              w.updateOffset (clampTarget w t) true, [cmd, cmd]⟩)) ∧
    (respond p (PlayerCmd.volumeCmd v) = CmdResp.badRequest →
      recoverPlayer server p = none →
      setVolumeWorker server settings respond st w v lowering
        = (st, ⟨CallRet.ret false,
            w.updateVolume v (capturedPreviousVolume settings p lowering)
              lowering, [PlayerCmd.volumeCmd v]⟩)) ∧
    (∀ q, respond p (PlayerCmd.volumeCmd v) = CmdResp.badRequest →
      recoverPlayer server p = some q →
      respond q (PlayerCmd.volumeCmd v) = CmdResp.ok →
      setVolumeWorker server settings respond st w v lowering
        = (st, ⟨CallRet.ret true,
            w.updateVolume v (capturedPreviousVolume settings p lowering)
              lowering, [PlayerCmd.volumeCmd v, PlayerCmd.volumeCmd v]⟩)) ∧
    (∀ q, respond p (PlayerCmd.volumeCmd v) = CmdResp.badRequest →
      recoverPlayer server p = some q →
      respond q (PlayerCmd.volumeCmd v) = CmdResp.badRequest →
      setVolumeWorker server settings respond st w v lowering
        = (st, ⟨CallRet.ret false,
            w.updateVolume v (capturedPreviousVolume settings p lowering)
              lowering, [PlayerCmd.volumeCmd v, PlayerCmd.volumeCmd v]⟩)) ∧
    (respond p (PlayerCmd.volumeCmd v) = CmdResp.timeoutErr →
      setVolumeWorker server settings respond st w v lowering
        = (removeSession st w.pasIdentifier,
            ⟨CallRet.exc CmdResp.timeoutErr,
              w.updateVolume v (capturedPreviousVolume settings p lowering)
                lowering, [PlayerCmd.volumeCmd v]⟩)) ∧
    (∀ q, respond p (PlayerCmd.volumeCmd v) = CmdResp.badRequest →
      recoverPlayer server p = some q →
      respond q (PlayerCmd.volumeCmd v) = CmdResp.timeoutErr →
      setVolumeWorker server settings respond st w v lowering
        = (removeSession st w.pasIdentifier,
            ⟨CallRet.exc CmdResp.timeoutErr,
              w.updateVolume v (capturedPreviousVolume settings p lowering)
                lowering,
              [PlayerCmd.volumeCmd v, PlayerCmd.volumeCmd v]⟩)) := by
  have hcmd1 : sentCmd server settings
      (w.updateOffset (clampTarget w t) true) (clampTarget w t) = some cmd := by
    rw [sentCmd_updateOffset, sentCmd_clamped]
    exact hcmd
  refine ⟨?_, ?_, ?_, ?_, ?_, ?_, ?_, ?_, ?_, ?_⟩
  · intro hbr hrec
    unfold seekToWorker
    rw [hp, seekPlayerTo_send 3 server settings respond p w t cmd hcmd]
    simp only [hbr]
    rw [hrec]
    rfl
  · intro q hbr hq hok
    unfold seekToWorker
    rw [hp, seekPlayerTo_send 3 server settings respond p w t cmd hcmd]
    simp only [hbr]
    rw [hq, seekPlayerTo_send 2 server settings respond q
      (w.updateOffset (clampTarget w t) true) (clampTarget w t) cmd hcmd1]
    simp only [hok, clampTarget_updateOffset, clampTarget_idem,
      updateOffset_idem]
  · intro q hbr hq hbr2
    unfold seekToWorker
    rw [hp, seekPlayerTo_send 3 server settings respond p w t cmd hcmd]
    simp only [hbr]
    rw [hq, seekPlayerTo_send 2 server settings respond q
      (w.updateOffset (clampTarget w t) true) (clampTarget w t) cmd hcmd1]
    simp only [hbr2, recoverPlayer_idem server p q hq,
      clampTarget_updateOffset, clampTarget_idem, updateOffset_idem]
    rfl
  · intro hto
    unfold seekToWorker
    rw [hp, seekPlayerTo_send 3 server settings respond p w t cmd hcmd]
    simp only [hto]
  · intro q hbr hq hto2
    unfold seekToWorker
    rw [hp, seekPlayerTo_send 3 server settings respond p w t cmd hcmd]
    simp only [hbr]
    rw [hq, seekPlayerTo_send 2 server settings respond q
      (w.updateOffset (clampTarget w t) true) (clampTarget w t) cmd hcmd1]
    simp only [hto2, clampTarget_updateOffset, clampTarget_idem,
      updateOffset_idem]
  · intro hbr hrec
    unfold setVolumeWorker
    rw [hp, setPlayerVolume_step 3 server settings respond p w v lowering]
    simp only [hbr]
    rw [hrec]
    rfl
  · intro q hbr hq hok
    have hpv : capturedPreviousVolume settings q lowering
        = capturedPreviousVolume settings p lowering := by
      unfold capturedPreviousVolume
      rw [recoverPlayer_timeline server p q hq]
    unfold setVolumeWorker
    rw [hp, setPlayerVolume_step 3 server settings respond p w v lowering]
    simp only [hbr]
    rw [hq, setPlayerVolume_step 2 server settings respond q
      (w.updateVolume v (capturedPreviousVolume settings p lowering) lowering)
      v lowering]
    simp only [hok, hpv, updateVolume_idem]
  · intro q hbr hq hbr2
    have hpv : capturedPreviousVolume settings q lowering
        = capturedPreviousVolume settings p lowering := by
      unfold capturedPreviousVolume
      rw [recoverPlayer_timeline server p q hq]
    unfold setVolumeWorker
    rw [hp, setPlayerVolume_step 3 server settings respond p w v lowering]
    simp only [hbr]
    rw [hq, setPlayerVolume_step 2 server settings respond q
      (w.updateVolume v (capturedPreviousVolume settings p lowering) lowering)
      v lowering]
    simp only [hbr2, recoverPlayer_idem server p q hq, hpv, updateVolume_idem]
    rfl
  · intro hto
    unfold setVolumeWorker
    rw [hp, setPlayerVolume_step 3 server settings respond p w v lowering]
    simp only [hto]
  · intro q hbr hq hto2
    have hpv : capturedPreviousVolume settings q lowering
        = capturedPreviousVolume settings p lowering := by
      unfold capturedPreviousVolume
      rw [recoverPlayer_timeline server p q hq]
    unfold setVolumeWorker
    rw [hp, setPlayerVolume_step 3 server settings respond p w v lowering]
    simp only [hbr]
    rw [hq, setPlayerVolume_step 2 server settings respond q
      (w.updateVolume v (capturedPreviousVolume settings p lowering) lowering)
      v lowering]
    simp only [hto2, hpv, updateVolume_idem]

/-- A proxy-only client (no recovery path exists). -/
def playerWeb : Player := { basePlayer with product := "Plex Web" }

/-- A tracked session on the proxy-only client. -/
def wrapperC3 : MediaWrapper :=
  { baseWrapper with player := some playerWeb, viewOffset := 100000 }

/-- A player that rejects every command as player-not-found/forbidden. -/
def respondBad : Player → PlayerCmd → CmdResp := fun _ _ => CmdResp.badRequest

/-- A player whose every command times out. -/
def respondTimeout : Player → PlayerCmd → CmdResp := fun _ _ => CmdResp.timeoutErr

/-- A registry holding only the proxy-only session. -/
def stC3 : SkipperState := ⟨[("12-client-1", wrapperC3)], []⟩

/-- C3 counterexample: a seek — and likewise a volume command — rejected with
the player-not-found/forbidden error on a client for which recovery yields no
usable client does NOT evict the session: both workers return normally and
the registry still holds the session, contradicting the claimed eviction. -/
theorem C3_counterexample :
    recoverPlayer emptyServer playerWeb = none ∧
      respondBad playerWeb (PlayerCmd.seekCmd 300000) = CmdResp.badRequest ∧
      (seekToWorker emptyServer baseSettings respondBad stC3 wrapperC3
          300000).1.media_sessions.lookup "12-client-1" = some wrapperC3 ∧
      respondBad playerWeb (PlayerCmd.volumeCmd 50) = CmdResp.badRequest ∧
      (setVolumeWorker emptyServer baseSettings respondBad stC3 wrapperC3
          50 true).1.media_sessions.lookup "12-client-1" = some wrapperC3 :=
  ⟨rfl, rfl, rfl, rfl, rfl⟩

/-- C3 witness: the amended recovery theorem applied to the proxy-only client
with skip-next enabled — a rejected seek with failed recovery leaves the
session tracked, while a timing-out volume command evicts it. -/
theorem C3_witness :
    seekToWorker emptyServer baseSettings respondBad stC3 wrapperC3 300000
        = (stC3, ⟨CallRet.ret false, wrapperC3.updateOffset 300000 true,
            [PlayerCmd.seekCmd 300000]⟩) ∧
      setVolumeWorker emptyServer baseSettings respondTimeout stC3 wrapperC3
          50 true
        = (removeSession stC3 wrapperC3.pasIdentifier,
            ⟨CallRet.exc CmdResp.timeoutErr,
              wrapperC3.updateVolume 50 80 true, [PlayerCmd.volumeCmd 50]⟩) :=
  ⟨(C3_amended_recovery emptyServer baseSettings respondBad stC3 wrapperC3
      playerWeb 300000 (PlayerCmd.seekCmd 300000) 50 true rfl rfl).1 rfl rfl,
   (C3_amended_recovery emptyServer baseSettings respondTimeout stC3 wrapperC3
      playerWeb 300000 (PlayerCmd.seekCmd 300000) 50 true rfl
      rfl).2.2.2.2.2.2.2.2.1 rfl⟩

/-
C6 — key-based allow/block admission.
-/

/-- A block-list hit at any ancestry level (own, parent, grandparent key). -/
def keyBlockHit (custom : CustomEntries) (media : Media) : Bool :=
  custom.blockedKeys.contains media.ratingKey ||
  optInKeys media.parentRatingKey custom.blockedKeys ||
  optInKeys media.grandparentRatingKey custom.blockedKeys

/-- An allow-list hit at any ancestry level (own, parent, grandparent key). -/
def keyAllowHit (custom : CustomEntries) (media : Media) : Bool :=
  custom.allowedKeys.contains media.ratingKey ||
  optInKeys media.parentRatingKey custom.allowedKeys ||
  optInKeys media.grandparentRatingKey custom.allowedKeys

/-- C6: in key-based admission, a block-list hit on the content's own, parent,
or grandparent key rejects the session unconditionally — also when a key is on
the allow list; with an allow list configured and no allow hit at any level
the session is rejected; and an allow hit flips the decision toward admit only
once every block check has failed (and the remaining admission gates pass). -/
theorem C6_key_admission (settings : Settings) (custom : CustomEntries)
    (w : MediaWrapper) :
    (keyBlockHit custom w.media = true →
      shouldAdd settings custom w = false) ∧
    (custom.allowedKeys ≠ [] → keyAllowHit custom w.media = false →
      shouldAdd settings custom w = false) ∧
    (keyAllowHit custom w.media = true → keyBlockHit custom w.media = false →
      settings.types.contains w.media.type = true →
      (w.media.librarySectionTitle != "" &&
        settings.ignoredlibraries.contains w.media.librarySectionTitle.toLower)
          = false →
      firstEpisodeBlocked settings w.media = false →
      (!settings.skipunwatched && !w.media.isWatched) = false →
      shouldAdd settings custom w = true) := by
  refine ⟨?_, ?_, ?_⟩
  · intro hb
    simp only [keyBlockHit, Bool.or_eq_true] at hb
    rcases hb with (hb | hb) | hb
    · have hb' : w.media.ratingKey ∈ custom.blockedKeys := by simpa using hb
      simp [shouldAdd, hb']
    · simp [shouldAdd, hb]
    · simp [shouldAdd, hb]
  · intro hne ha
    simp only [keyAllowHit, Bool.or_eq_false_iff] at ha
    obtain ⟨⟨h1, h2⟩, h3⟩ := ha
    have h1' : w.media.ratingKey ∉ custom.allowedKeys := by simpa using h1
    simp [shouldAdd, h1', h2, h3, hne]
  · intro ha hb htype hlib hepi hwatch
    simp only [keyBlockHit, Bool.or_eq_false_iff] at hb
    obtain ⟨⟨hb1, hb2⟩, hb3⟩ := hb
    have hb1' : w.media.ratingKey ∉ custom.blockedKeys := by simpa using hb1
    have htype' : w.media.type ∈ settings.types := by simpa using htype
    have hlib' : w.media.librarySectionTitle = "" ∨
        w.media.librarySectionTitle.toLower ∉ settings.ignoredlibraries := by
      rcases Bool.and_eq_false_iff.mp hlib with h | h
      · left
        simpa using h
      · right
        simpa using h
    have hwatch' : settings.skipunwatched = true ∨ w.media.isWatched = true := by
      rcases Bool.and_eq_false_iff.mp hwatch with h | h
      · left
        simpa using h
      · right
        simpa using h
    simp only [keyAllowHit, Bool.or_eq_true] at ha
    rcases ha with (ha | ha) | ha
    · have ha' : w.media.ratingKey ∈ custom.allowedKeys := by simpa using ha
      simp [shouldAdd, htype', hlib', hepi, hwatch', hb1', hb2, hb3, ha']
    · simp [shouldAdd, htype', hlib', hepi, hwatch', hb1', hb2, hb3, ha]
    · simp [shouldAdd, htype', hlib', hepi, hwatch', hb1', hb2, hb3, ha]

/-- Operator lists allowing the show's grandparent key 1 but blocking the
episode's own key 100. -/
def customC6 : CustomEntries :=
  { emptyCustom with allowedKeys := [1, 100], blockedKeys := [100] }

/-- Operator lists allowing only the grandparent key 1. -/
def customC6allow : CustomEntries := { emptyCustom with allowedKeys := [1] }

/-- Operator lists allowing only an unrelated key 555. -/
def customC6miss : CustomEntries := { emptyCustom with allowedKeys := [555] }

/-- C6 witness: the key-admission theorem applied to concrete lists — a block
hit on the own key rejects baseWrapper even though the key is also allowed, a
configured allow list with no hit rejects it, and a grandparent allow hit with
no block hit admits it. -/
theorem C6_witness :
    shouldAdd baseSettings customC6 baseWrapper = false ∧
      shouldAdd baseSettings customC6miss baseWrapper = false ∧
      shouldAdd baseSettings customC6allow baseWrapper = true :=
  ⟨(C6_key_admission baseSettings customC6 baseWrapper).1 rfl,
   (C6_key_admission baseSettings customC6miss baseWrapper).2.1
     (by decide) rfl,
   (C6_key_admission baseSettings customC6allow baseWrapper).2.2 rfl rfl rfl
     rfl rfl rfl⟩

/-
C8 — volume state transitions.
-/

/-- C8: one volume check transitions Normal to Lowered only when shouldLower
holds (commanding the configured low volume and caching the player's current
timeline volume at that moment), transitions Lowered to Normal only when
shouldLower does not hold (commanding exactly the cached volume), and leaves
the session untouched otherwise; updateVolume sets the lowering flag and the
cached volume together on lowering and never changes the cached volume on
raising. -/
theorem C8_volume_transitions (server : Server) (settings : Settings)
    (respond : Player → PlayerCmd → CmdResp) (w : MediaWrapper) (p : Player)
    (tl : Timeline) (tv : Int) (l r : Int)
    (hp : w.player = some p) (htl : p.timeline = some tl)
    (htv : tl.volume = some tv)
    (hok : ∀ v, respond p (PlayerCmd.volumeCmd v) = CmdResp.ok) :
    (w.loweringVolume = false → shouldLowerMediaVolume settings w l r = true →
      volumeCheckStep server settings respond w l r
        = ⟨CallRet.ret true, w.updateVolume settings.volumelow tv true,
            [PlayerCmd.volumeCmd settings.volumelow]⟩) ∧
    (w.loweringVolume = false → shouldLowerMediaVolume settings w l r = false →
      volumeCheckStep server settings respond w l r
        = ⟨CallRet.ret true, w, []⟩) ∧
    (w.loweringVolume = true → shouldLowerMediaVolume settings w l r = false →
      volumeCheckStep server settings respond w l r
        = ⟨CallRet.ret true, w.updateVolume w.cachedVolume tv false,
            [PlayerCmd.volumeCmd w.cachedVolume]⟩) ∧
    (w.loweringVolume = true → shouldLowerMediaVolume settings w l r = true →
      volumeCheckStep server settings respond w l r
        = ⟨CallRet.ret true, w, []⟩) ∧
    (∀ v pv, (w.updateVolume v pv true).cachedVolume = pv ∧
      (w.updateVolume v pv true).loweringVolume = true) ∧
    (∀ v pv, (w.updateVolume v pv false).cachedVolume = w.cachedVolume ∧
      (w.updateVolume v pv false).loweringVolume = false) := by
  refine ⟨?_, ?_, ?_, ?_, ?_, ?_⟩
  · intro hlow hsl
    simp only [volumeCheckStep, checkMediaVolume, hlow, hsl, Bool.not_false,
      Bool.true_and, if_true, hp, setPlayerVolume, htl, htv, hok]
  · intro hlow hsl
    simp only [volumeCheckStep, checkMediaVolume, hlow, hsl, Bool.and_false,
      Bool.false_and, Bool.false_eq_true, if_false]
  · intro hlow hsl
    simp only [volumeCheckStep, checkMediaVolume, hlow, hsl, Bool.and_false,
      Bool.false_and, Bool.not_false, Bool.and_true, Bool.true_and,
      Bool.false_eq_true, if_false, if_true, hp, setPlayerVolume, htl, htv,
      hok]
  · intro hlow hsl
    simp only [volumeCheckStep, checkMediaVolume, hlow, hsl, Bool.not_true,
      Bool.false_and, Bool.and_false, Bool.false_eq_true, if_false]
  · intro v pv
    exact ⟨rfl, rfl⟩
  · intro v pv
    exact ⟨rfl, rfl⟩

/-- A session inside a custom volume-lowering range. -/
def wrapperC8 : MediaWrapper :=
  { baseWrapper with
    viewOffset := 200000
    customMarkers := [⟨190000, 230000, ModeType.volume, 42⟩] }

/-- The lowered session just past the custom range, with the pre-lowering
volume 80 cached. -/
def wrapperC8low : MediaWrapper :=
  { baseWrapper with
    viewOffset := 240000
    customMarkers := [⟨190000, 230000, ModeType.volume, 42⟩]
    loweringVolume := true
    cachedVolume := 80 }

/-- C8 witness: the transition theorem applied to a session entering a custom
volume range (lowered to the configured low volume 10, caching the timeline
volume 80) and to the lowered session leaving it (restored to exactly the
cached 80). -/
theorem C8_witness :
    volumeCheckStep emptyServer baseSettings respondOk wrapperC8 0 0
        = ⟨CallRet.ret true, wrapperC8.updateVolume 10 80 true,
            [PlayerCmd.volumeCmd 10]⟩ ∧
      volumeCheckStep emptyServer baseSettings respondOk wrapperC8low 0 0
        = ⟨CallRet.ret true, wrapperC8low.updateVolume 80 80 false,
            [PlayerCmd.volumeCmd 80]⟩ :=
  ⟨(C8_volume_transitions emptyServer baseSettings respondOk wrapperC8
      basePlayer ⟨some 80⟩ 80 0 0 rfl rfl rfl (fun _ => rfl)).1 rfl rfl,
   (C8_volume_transitions emptyServer baseSettings respondOk wrapperC8low
      basePlayer ⟨some 80⟩ 80 0 0 rfl rfl rfl (fun _ => rfl)).2.2.1 rfl rfl⟩

end PAS
